import Mathlib

/-!
Verification of the chaos-engineering simulator core.

The definitions below are a shallow embedding of the Python sources:
  src/core/service.py      (ServiceInstance, Service)
  src/core/monitoring.py   (AlertManager)
  src/chaos/experiments.py (ChaosExperiment lifecycle, LatencyMonkey,
                            NetworkPartitionMonkey)
  src/chaos/runner.py      (ExperimentRunner)
  src/chaos/chaos_monkey.py (ChaosMonkey)

Randomness in the source (random.choice, random.random, random.uniform,
time.time) is made explicit: every random draw or clock read becomes a
parameter of the embedded function.  Python dicts become association
lists (insertion ordered, unique keys); in-place mutation becomes
functional update.
-/

namespace Chaos

/-- States of a service instance, from ServiceStatus in src/core/service.py. -/
inductive ServiceStatus where
  | healthy
  | degraded
  | unhealthy
  | terminated
  | recovering
deriving DecidableEq

/-- A single simulated service replica (ServiceInstance in src/core/service.py).
Only the fields the verified operations read or write are modelled; purely
cosmetic fields (port, uptime, cpu/memory gauges) are omitted. -/
structure ServiceInstance where
  instance_id : String
  region : String
  status : ServiceStatus
  base_response_time : ℚ
  error_probability : ℚ
  failure_count : Nat
  response_time_ms : ℚ
deriving DecidableEq

/-- ServiceInstance.terminate: any state becomes Terminated. -/
def ServiceInstance.terminate (i : ServiceInstance) : ServiceInstance :=
  { i with status := ServiceStatus.terminated }

/-- ServiceInstance.introduce_latency: additive to the base response time. -/
def ServiceInstance.introduce_latency (i : ServiceInstance) (additional_ms : ℚ) :
    ServiceInstance :=
  { i with base_response_time := i.base_response_time + additional_ms }

/-- The membership test of Service.get_healthy_instances:
status in [HEALTHY, DEGRADED]. -/
def serving (i : ServiceInstance) : Bool :=
  i.status == ServiceStatus.healthy || i.status == ServiceStatus.degraded

/-- A service owning a pool of instances (Service in src/core/service.py).
The Python dict instance_id -> instance is an insertion-ordered list whose
instance_id fields are unique. -/
structure Service where
  name : String
  min_instances : Nat
  max_instances : Nat
  instances : List ServiceInstance
  request_count : Nat
  successful_requests : Nat
  error_count : Nat
  total_response_time : ℚ
deriving DecidableEq

/-- Service.get_healthy_instances. -/
def Service.get_healthy_instances (s : Service) : List ServiceInstance :=
  s.instances.filter serving

/-- Number of healthy (Healthy or Degraded) instances. -/
def Service.healthy_count (s : Service) : Nat :=
  s.get_healthy_instances.length

/-- Service.chaos_terminate_random_instance.  The uniform random pick of
random.choice is the index parameter pick, reduced mod the length of the
healthy list. -/
def Service.chaos_terminate_random_instance (s : Service) (pick : Nat) :
    Option String × Service :=
  let healthy := s.get_healthy_instances
  if h : healthy.length ≤ s.min_instances then
    (none, s)
  else
    let target := healthy.get ⟨pick % healthy.length, Nat.mod_lt pick (by omega)⟩
    (some target.instance_id,
      { s with instances := s.instances.map (fun i =>
          if i.instance_id == target.instance_id then i.terminate else i) })

/-! ### Generic lemmas about updating one instance selected by id -/

/-- Updating by an id that does not occur in the list changes nothing. -/
theorem map_update_of_not_mem (l : List ServiceInstance) (tid : String)
    (f : ServiceInstance → ServiceInstance)
    (h : tid ∉ l.map (fun i => i.instance_id)) :
    l.map (fun i => if i.instance_id == tid then f i else i) = l := by
  have hall : ∀ i ∈ l, (if i.instance_id == tid then f i else i) = i := by
    intro i hi
    have hne : (i.instance_id == tid) = false := by
      simp only [beq_eq_false_iff_ne]
      intro hc
      exact h (List.mem_map.mpr ⟨i, hi, hc⟩)
    simp [hne]
  calc l.map (fun i => if i.instance_id == tid then f i else i)
      = l.map id := List.map_congr_left hall
    _ = l := List.map_id l

/-- An id-selected update preserves the list of instance ids whenever the
update function preserves instance_id. -/
theorem map_update_ids (l : List ServiceInstance) (tid : String)
    (f : ServiceInstance → ServiceInstance)
    (hf : ∀ i, (f i).instance_id = i.instance_id) :
    (l.map (fun i => if i.instance_id == tid then f i else i)).map
        (fun i => i.instance_id)
      = l.map (fun i => i.instance_id) := by
  induction l with
  | nil => rfl
  | cons a l ih =>
      simp only [List.map_cons, ih]
      cases h : a.instance_id == tid <;> simp [h, hf]

/-- Updating exactly the occurrence of t (ids unique, t present, p t holds,
p fails on the updated t) drops countP by one. -/
theorem countP_map_update (l : List ServiceInstance) (t : ServiceInstance)
    (f : ServiceInstance → ServiceInstance) (p : ServiceInstance → Bool)
    (hnd : (l.map (fun i => i.instance_id)).Nodup)
    (ht : t ∈ l) (hpt : p t = true) (hpf : p (f t) = false) :
    (l.map (fun i => if i.instance_id == t.instance_id then f i else i)).countP p
      = l.countP p - 1 := by
  induction l with
  | nil => cases ht
  | cons a l ih =>
      simp only [List.map_cons, List.nodup_cons] at hnd
      rcases List.mem_cons.mp ht with hta | htl
      · subst hta
        have htail : l.map (fun i =>
            if i.instance_id == t.instance_id then f i else i) = l :=
          map_update_of_not_mem l t.instance_id f hnd.1
        have hhead : (if t.instance_id == t.instance_id then f t else t) = f t := by
          simp
        rw [List.map_cons, htail, hhead, List.countP_cons, List.countP_cons,
          hpt, hpf]
        simp
      · have hmem : t.instance_id ∈ l.map (fun i => i.instance_id) :=
          List.mem_map.mpr ⟨t, htl, rfl⟩
        have hne : (a.instance_id == t.instance_id) = false := by
          simp only [beq_eq_false_iff_ne]
          intro hc
          exact hnd.1 (hc ▸ hmem)
        have hpos : 0 < l.countP p :=
          List.countP_pos_iff.mpr ⟨t, htl, hpt⟩
        have hhead : (if a.instance_id == t.instance_id then f a else a) = a := by
          simp [hne]
        have htail := ih hnd.2 htl
        rw [List.map_cons, hhead, List.countP_cons, List.countP_cons, htail]
        cases hpa : p a
        · simp
        · simp
          omega

theorem serving_terminate (i : ServiceInstance) :
    serving i.terminate = false := rfl

theorem terminate_instance_id (i : ServiceInstance) :
    i.terminate.instance_id = i.instance_id := rfl

/-- healthy_count as a countP over the instance pool. -/
theorem healthy_count_eq_countP (s : Service) :
    s.healthy_count = s.instances.countP serving := by
  simp [Service.healthy_count, Service.get_healthy_instances,
    List.countP_eq_length_filter]

/-! ### Behaviour of chaos_terminate_random_instance -/

/-- Refusal branch: at or below the minimum nothing happens. -/
theorem chaos_terminate_of_le (s : Service) (pick : Nat)
    (h : s.healthy_count ≤ s.min_instances) :
    s.chaos_terminate_random_instance pick = (none, s) := by
  have h' : s.get_healthy_instances.length ≤ s.min_instances := h
  simp only [Service.chaos_terminate_random_instance]
  rw [dif_pos h']

/-- Success branch: above the minimum, some healthy instance t is picked,
the returned id is t.instance_id, and the pool is updated by terminating
exactly the instances whose id equals t.instance_id. -/
theorem chaos_terminate_of_lt (s : Service) (pick : Nat)
    (h : s.min_instances < s.healthy_count) :
    ∃ t : ServiceInstance, t ∈ s.get_healthy_instances ∧
      s.chaos_terminate_random_instance pick =
        (some t.instance_id,
          { s with instances := s.instances.map (fun i =>
              if i.instance_id == t.instance_id then i.terminate else i) }) := by
  have hlen : ¬ s.get_healthy_instances.length ≤ s.min_instances := by
    simp [Service.healthy_count] at h
    omega
  refine ⟨s.get_healthy_instances.get
    ⟨pick % s.get_healthy_instances.length, Nat.mod_lt pick (by omega)⟩,
    by apply List.get_mem, ?_⟩
  simp [Service.chaos_terminate_random_instance, hlen]

/-- The instance-id list of the pool is invariant under a chaos termination
(whether it fires or is refused). -/
theorem chaos_terminate_ids (s : Service) (pick : Nat) :
    ((s.chaos_terminate_random_instance pick).2.instances.map
        (fun i => i.instance_id))
      = s.instances.map (fun i => i.instance_id) := by
  by_cases h : s.healthy_count ≤ s.min_instances
  · rw [chaos_terminate_of_le s pick h]
  · obtain ⟨t, _, heq⟩ := chaos_terminate_of_lt s pick (by omega)
    rw [heq]
    exact map_update_ids _ _ _ terminate_instance_id

/-- min_instances is untouched by a chaos termination. -/
theorem chaos_terminate_min (s : Service) (pick : Nat) :
    (s.chaos_terminate_random_instance pick).2.min_instances
      = s.min_instances := by
  by_cases h : s.healthy_count ≤ s.min_instances
  · rw [chaos_terminate_of_le s pick h]
  · obtain ⟨t, _, heq⟩ := chaos_terminate_of_lt s pick (by omega)
    rw [heq]

/-- Above the minimum, a chaos termination removes exactly one instance from
the healthy pool. -/
theorem chaos_terminate_healthy_count (s : Service) (pick : Nat)
    (hnd : (s.instances.map (fun i => i.instance_id)).Nodup)
    (h : s.min_instances < s.healthy_count) :
    (s.chaos_terminate_random_instance pick).2.healthy_count
      = s.healthy_count - 1 := by
  obtain ⟨t, htmem, heq⟩ := chaos_terminate_of_lt s pick h
  have ht : t ∈ s.instances ∧ serving t = true := by
    have := List.mem_filter.mp htmem
    exact ⟨this.1, this.2⟩
  rw [heq, healthy_count_eq_countP, healthy_count_eq_countP]
  exact countP_map_update s.instances t ServiceInstance.terminate serving hnd
    ht.1 ht.2 (serving_terminate t)

/-- Scenario A service: three healthy instances, min_instances = 1. -/
def svcA : Service :=
  { name := "scenario-a"
    min_instances := 1
    max_instances := 8
    instances :=
      [ { instance_id := "i1", region := "us-east-1",
          status := ServiceStatus.healthy, base_response_time := 100,
          error_probability := 1/200, failure_count := 0,
          response_time_ms := 0 }
      , { instance_id := "i2", region := "us-east-1",
          status := ServiceStatus.healthy, base_response_time := 120,
          error_probability := 1/200, failure_count := 0,
          response_time_ms := 0 }
      , { instance_id := "i3", region := "us-east-1",
          status := ServiceStatus.healthy, base_response_time := 140,
          error_probability := 1/200, failure_count := 0,
          response_time_ms := 0 } ]
    request_count := 0
    successful_requests := 0
    error_count := 0
    total_response_time := 0 }

/-- C1: chaos_terminate_random_instance returns None and changes nothing when
the healthy count is at or below min_instances; otherwise it terminates exactly
one healthy instance, returns its id, and the healthy count drops by exactly
one but never below min_instances.  On a Service with 3 healthy instances and
min_instances = 1, two successive calls leave exactly 1 healthy instance and a
third call returns None. -/
theorem C1_chaos_terminate_min_instances (s : Service) (pick : Nat)
    (hnd : (s.instances.map (fun i => i.instance_id)).Nodup) :
    (s.healthy_count ≤ s.min_instances →
      s.chaos_terminate_random_instance pick = (none, s)) ∧
    (s.min_instances < s.healthy_count →
      ∃ t : ServiceInstance, t ∈ s.get_healthy_instances ∧
        (s.chaos_terminate_random_instance pick).1 = some t.instance_id ∧
        (s.chaos_terminate_random_instance pick).2.instances
          = s.instances.map (fun i =>
              if i.instance_id == t.instance_id then i.terminate else i) ∧
        (s.chaos_terminate_random_instance pick).2.healthy_count
          = s.healthy_count - 1 ∧
        s.min_instances ≤ (s.chaos_terminate_random_instance pick).2.healthy_count) ∧
    (∀ p1 p2 p3 : Nat,
      (((svcA.chaos_terminate_random_instance p1).2.chaos_terminate_random_instance
          p2).2.healthy_count = 1) ∧
      ((((svcA.chaos_terminate_random_instance p1).2.chaos_terminate_random_instance
          p2).2.chaos_terminate_random_instance p3).1 = none)) := by
  refine ⟨fun h => chaos_terminate_of_le s pick h, fun h => ?_, fun p1 p2 p3 => ?_⟩
  · obtain ⟨t, htmem, heq⟩ := chaos_terminate_of_lt s pick h
    refine ⟨t, htmem, by rw [heq], by rw [heq], ?_, ?_⟩
    · exact chaos_terminate_healthy_count s pick hnd h
    · have := chaos_terminate_healthy_count s pick hnd h
      omega
  · have hnd0 : (svcA.instances.map (fun i => i.instance_id)).Nodup := by decide
    have hc0 : svcA.healthy_count = 3 := by decide
    have hm0 : svcA.min_instances = 1 := by decide
    set s1 := (svcA.chaos_terminate_random_instance p1).2 with hs1
    have hnd1 : (s1.instances.map (fun i => i.instance_id)).Nodup := by
      rw [hs1, chaos_terminate_ids]
      exact hnd0
    have hc1 : s1.healthy_count = 2 := by
      rw [hs1, chaos_terminate_healthy_count svcA p1 hnd0 (by omega), hc0]
    have hm1 : s1.min_instances = 1 := by
      rw [hs1, chaos_terminate_min, hm0]
    set s2 := (s1.chaos_terminate_random_instance p2).2 with hs2
    have hc2 : s2.healthy_count = 1 := by
      rw [hs2, chaos_terminate_healthy_count s1 p2 hnd1 (by omega), hc1]
    have hm2 : s2.min_instances = 1 := by
      rw [hs2, chaos_terminate_min, hm1]
    refine ⟨hc2, ?_⟩
    rw [chaos_terminate_of_le s2 p3 (by omega)]

/-- Concrete witness for C1 at svcA with pick 0. -/
theorem C1_chaos_terminate_min_instances_witness :
    ((svcA.instances.map (fun i => i.instance_id)).Nodup) ∧
    (svcA.healthy_count ≤ svcA.min_instances →
      svcA.chaos_terminate_random_instance 0 = (none, svcA)) := by
  refine ⟨by decide, ?_⟩
  exact (C1_chaos_terminate_min_instances svcA 0 (by decide)).1

/-! ## Request handling (Service.handle_request, C9) -/

/-- Result of one simulated request. -/
inductive ReqResult where
  | ok (response_time_ms : ℚ)
  | failed (msg : String)
deriving DecidableEq

/-- ServiceInstance._update_metrics, restricted to the modelled fields:
the moving-average response time (20 percent weight on the new value).
The randomized cpu/memory gauges are not modelled. -/
def ServiceInstance.update_metrics (i : ServiceInstance) (response_time : ℚ) :
    ServiceInstance :=
  { i with response_time_ms :=
      if i.response_time_ms == 0 then response_time
      else i.response_time_ms * (8/10) + response_time * (2/10) }

/-- ServiceInstance.handle_request.  The draw random.random() <
error_probability becomes the Boolean parameter rand_error; the measured
processing time becomes elapsed_ms. -/
def ServiceInstance.handle_request (i : ServiceInstance) (rand_error : Bool)
    (elapsed_ms : ℚ) : ReqResult × ServiceInstance :=
  if i.status == ServiceStatus.unhealthy then
    (ReqResult.failed "service unavailable", i)
  else if i.status == ServiceStatus.terminated then
    (ReqResult.failed "instance terminated", i)
  else if rand_error then
    (ReqResult.failed "simulated error",
      { i with failure_count := i.failure_count + 1 })
  else
    (ReqResult.ok elapsed_ms, i.update_metrics elapsed_ms)

/-- The pool after replacing the instance with the given id. -/
def Service.replace_instance (s : Service) (tid : String)
    (inst2 : ServiceInstance) : List ServiceInstance :=
  s.instances.map (fun j => if j.instance_id == tid then inst2 else j)

/-- The uniformly random healthy instance chosen by random.choice. -/
def Service.pick_healthy (s : Service) (pick : Nat)
    (h : ¬ s.get_healthy_instances.length = 0) : ServiceInstance :=
  s.get_healthy_instances.get
    ⟨pick % s.get_healthy_instances.length, Nat.mod_lt pick (by omega)⟩

/-- Service.handle_request: fail fast when no healthy instance exists
(counting the request and the error), otherwise delegate to a uniformly
random healthy instance and update the service counters on either outcome. -/
def Service.handle_request (s : Service) (pick : Nat) (rand_error : Bool)
    (elapsed_ms : ℚ) : ReqResult × Service :=
  if h : s.get_healthy_instances.length = 0 then
    (ReqResult.failed "no healthy instances",
      { s with error_count := s.error_count + 1,
               request_count := s.request_count + 1 })
  else
    match (s.pick_healthy pick h).handle_request rand_error elapsed_ms with
    | (ReqResult.ok rt, inst2) =>
        (ReqResult.ok rt,
          { s with instances :=
                     s.replace_instance (s.pick_healthy pick h).instance_id inst2,
                   request_count := s.request_count + 1,
                   successful_requests := s.successful_requests + 1,
                   total_response_time := s.total_response_time + rt })
    | (ReqResult.failed msg, inst2) =>
        (ReqResult.failed msg,
          { s with instances :=
                     s.replace_instance (s.pick_healthy pick h).instance_id inst2,
                   error_count := s.error_count + 1,
                   request_count := s.request_count + 1 })

/-- C9: every call to Service.handle_request increments request_count by
exactly one and exactly one of successful_requests or error_count by one, so
the balance request_count = successful_requests + error_count is preserved. -/
theorem C9_handle_request_counters (s : Service) (pick : Nat)
    (rand_error : Bool) (elapsed_ms : ℚ) :
    (s.handle_request pick rand_error elapsed_ms).2.request_count
      = s.request_count + 1 ∧
    (((s.handle_request pick rand_error elapsed_ms).2.successful_requests
        = s.successful_requests + 1 ∧
      (s.handle_request pick rand_error elapsed_ms).2.error_count
        = s.error_count) ∨
     ((s.handle_request pick rand_error elapsed_ms).2.error_count
        = s.error_count + 1 ∧
      (s.handle_request pick rand_error elapsed_ms).2.successful_requests
        = s.successful_requests)) ∧
    (s.request_count = s.successful_requests + s.error_count →
      (s.handle_request pick rand_error elapsed_ms).2.request_count
        = (s.handle_request pick rand_error elapsed_ms).2.successful_requests
          + (s.handle_request pick rand_error elapsed_ms).2.error_count) := by
  unfold Service.handle_request
  by_cases h : s.get_healthy_instances.length = 0
  · rw [dif_pos h]
    refine ⟨rfl, Or.inr ⟨rfl, rfl⟩, fun hbal => ?_⟩
    show s.request_count + 1 = s.successful_requests + (s.error_count + 1)
    omega
  · rw [dif_neg h]
    split
    · refine ⟨rfl, Or.inl ⟨rfl, rfl⟩, fun hbal => ?_⟩
      show s.request_count + 1 = (s.successful_requests + 1) + s.error_count
      omega
    · refine ⟨rfl, Or.inr ⟨rfl, rfl⟩, fun hbal => ?_⟩
      show s.request_count + 1 = s.successful_requests + (s.error_count + 1)
      omega

/-- Concrete witness for C9 at svcA. -/
theorem C9_handle_request_counters_witness :
    svcA.request_count = svcA.successful_requests + svcA.error_count ∧
    (svcA.handle_request 0 false 100).2.request_count
      = (svcA.handle_request 0 false 100).2.successful_requests
        + (svcA.handle_request 0 false 100).2.error_count := by
  refine ⟨by decide, ?_⟩
  exact (C9_handle_request_counters svcA 0 false 100).2.2 (by decide)

/-! ## Experiments (src/chaos/experiments.py, C6) -/

/-- ExperimentType in src/chaos/experiments.py. -/
inductive ExperimentType where
  | instance_termination
  | network_latency
  | network_partition
  | resource_exhaustion
  | database_failure
  | dependency_failure
  | chaos_gorilla
  | chaos_kong
deriving DecidableEq

/-- ExperimentStatus in src/chaos/experiments.py. -/
inductive ExperimentStatus where
  | pending
  | running
  | completed
  | failed
  | cancelled
deriving DecidableEq

/-- The lifecycle state of a ChaosExperiment (base class fields; concrete
per-type payloads are modelled separately). -/
structure Experiment where
  name : String
  experiment_type : ExperimentType
  target_service : Option String
  duration_seconds : Nat
  status : ExperimentStatus
  error_message : Option String
  should_stop : Bool
deriving DecidableEq

/-- ChaosExperiment.start: only proceeds from PENDING; flips to RUNNING and
reports success, otherwise reports failure without any change. -/
def Experiment.start (e : Experiment) : Bool × Experiment :=
  if e.status != ExperimentStatus.pending then
    (false, e)
  else
    (true, { e with status := ExperimentStatus.running })

/-- ChaosExperiment.stop: sets the cooperative-stop flag and cancels the
experiment when it is still running. -/
def Experiment.stop (e : Experiment) : Experiment :=
  let e1 := { e with should_stop := true }
  if e1.status == ExperimentStatus.running then
    { e1 with status := ExperimentStatus.cancelled }
  else
    e1

/-- How the body of execute() ends: a normal return or an exception. -/
inductive ExecOutcome where
  | ok
  | raises (msg : String)
deriving DecidableEq

/-- Observable lifecycle calls of the run wrapper. -/
inductive LifecycleEvent where
  | execute_called
  | cleanup_called
deriving DecidableEq

/-- ChaosExperiment._run_experiment: execute() inside try, COMPLETED unless
the stop flag was raised, FAILED plus recorded message on an exception, and
cleanup() in the finally block on every path.  The returned event list is the
order of lifecycle calls made by the wrapper. -/
def Experiment.run_experiment (e : Experiment) (outcome : ExecOutcome) :
    Experiment × List LifecycleEvent :=
  match outcome with
  | ExecOutcome.ok =>
      (if e.should_stop then e
       else { e with status := ExperimentStatus.completed },
       [LifecycleEvent.execute_called, LifecycleEvent.cleanup_called])
  | ExecOutcome.raises msg =>
      ({ e with status := ExperimentStatus.failed, error_message := some msg },
       [LifecycleEvent.execute_called, LifecycleEvent.cleanup_called])

/-- C6: start() proceeds only from Pending (a second start() returns False and
changes nothing), the run wrapper calls execute() exactly once and then
cleanup() exactly once on every outcome, and an exception in execute() ends
the experiment as Failed with the message recorded in error_message. -/
theorem C6_experiment_run_once_cleanup (e : Experiment) (outcome : ExecOutcome) :
    (e.status = ExperimentStatus.pending →
      e.start.1 = true ∧
      e.start.2.status = ExperimentStatus.running ∧
      e.start.2.start = (false, e.start.2)) ∧
    (e.status ≠ ExperimentStatus.pending → e.start = (false, e)) ∧
    ((e.run_experiment outcome).2.count LifecycleEvent.execute_called = 1 ∧
     (e.run_experiment outcome).2.count LifecycleEvent.cleanup_called = 1 ∧
     (e.run_experiment outcome).2
       = [LifecycleEvent.execute_called, LifecycleEvent.cleanup_called]) ∧
    (∀ msg, outcome = ExecOutcome.raises msg →
      (e.run_experiment outcome).1.status = ExperimentStatus.failed ∧
      (e.run_experiment outcome).1.error_message = some msg) := by
  refine ⟨fun h => ?_, fun h => ?_, ?_, fun msg h => ?_⟩
  · simp [Experiment.start, h]
  · simp [Experiment.start, h]
  · cases outcome <;> simp [Experiment.run_experiment, List.count_cons]
  · subst h
    simp [Experiment.run_experiment]

/-- A concrete pending experiment used as a witness input. -/
def expC6 : Experiment :=
  { name := "latency-check"
    experiment_type := ExperimentType.network_latency
    target_service := some "api-gateway"
    duration_seconds := 300
    status := ExperimentStatus.pending
    error_message := none
    should_stop := false }

/-- Concrete witness for C6 at a pending experiment and a raising execute. -/
theorem C6_experiment_run_once_cleanup_witness :
    expC6.status = ExperimentStatus.pending ∧
    expC6.start.1 = true ∧
    (expC6.run_experiment (ExecOutcome.raises "boom")).1.status
      = ExperimentStatus.failed := by
  refine ⟨by decide, ?_, ?_⟩
  · exact ((C6_experiment_run_once_cleanup expC6 ExecOutcome.ok).1 (by decide)).1
  · exact ((C6_experiment_run_once_cleanup expC6
      (ExecOutcome.raises "boom")).2.2.2 "boom" rfl).1

/-! ## Association lists (Python dicts with string keys) -/

/-- In-place mutation of the value stored under a key of a Python dict:
every entry carrying the key receives the new value (keys are unique in an
actual dict, so at most one entry changes). -/
def assoc_update {β : Type} (l : List (String × β)) (k : String) (v : β) :
    List (String × β) :=
  l.map (fun p => if p.1 == k then (p.1, v) else p)

theorem assoc_update_of_not_mem {β : Type} (l : List (String × β)) (k : String)
    (v : β) (h : k ∉ l.map Prod.fst) : assoc_update l k v = l := by
  induction l with
  | nil => rfl
  | cons p l ih =>
      simp only [List.map_cons, List.mem_cons] at h
      push_neg at h
      have hp : (p.1 == k) = false := by
        simp only [beq_eq_false_iff_ne]
        intro hc
        exact h.1 hc.symm
      simp only [assoc_update, List.map_cons, hp, Bool.false_eq_true, if_false]
      have := ih h.2
      simp only [assoc_update] at this
      rw [this]

theorem lookup_assoc_update {β : Type} (l : List (String × β)) (k : String)
    (v : β) :
    List.lookup k (assoc_update l k v) = (List.lookup k l).map (fun _ => v) := by
  induction l with
  | nil => rfl
  | cons p l ih =>
      obtain ⟨k1, w⟩ := p
      cases hp : k1 == k with
      | true =>
          have hk : (k == k1) = true := by
            have := eq_of_beq hp
            simp [this]
          simp only [assoc_update, List.map_cons, hp, if_true]
          rw [List.lookup, List.lookup, hk]
          rfl
      | false =>
          have hk : (k == k1) = false := by
            simp only [beq_eq_false_iff_ne] at hp ⊢
            exact fun hc => hp hc.symm
          simp only [assoc_update, List.map_cons, hp, Bool.false_eq_true, if_false]
          rw [List.lookup, List.lookup, hk]
          exact ih

theorem assoc_update_self {β : Type} (l : List (String × β)) (k : String)
    (v : β) (hnd : (l.map Prod.fst).Nodup)
    (h : List.lookup k l = some v) : assoc_update l k v = l := by
  induction l with
  | nil => rfl
  | cons p l ih =>
      obtain ⟨k1, w⟩ := p
      simp only [List.map_cons, List.nodup_cons] at hnd
      cases hp : k1 == k with
      | true =>
          have hkp : k = k1 := (eq_of_beq hp).symm
          have hk : (k == k1) = true := by simp [hkp]
          rw [List.lookup, hk] at h
          have hv : w = v := by simpa using h
          have hrest : assoc_update l k v = l :=
            assoc_update_of_not_mem l k v (by rw [hkp]; exact hnd.1)
          simp only [assoc_update, List.map_cons, hp, if_true]
          simp only [assoc_update] at hrest
          rw [hrest, ← hv]
      | false =>
          have hk : (k == k1) = false := by
            simp only [beq_eq_false_iff_ne] at hp ⊢
            exact fun hc => hp hc.symm
          rw [List.lookup, hk] at h
          simp only [assoc_update, List.map_cons, hp, Bool.false_eq_true, if_false]
          have := ih hnd.2 h
          simp only [assoc_update] at this
          rw [this]

theorem isEmpty_false_of_lookup {β : Type} (l : List (String × β)) (k : String)
    (v : β) (h : List.lookup k l = some v) : l.isEmpty = false := by
  cases l with
  | nil => simp [List.lookup] at h
  | cons p l => rfl

/-! ## Experiment runner (src/chaos/runner.py, C3 C4 C5 C10) -/

/-- Side effects of a successful (non-dry) experiment start: the monitor
thread spawn and the on_start callback notification. -/
structure StartEffects where
  monitor_spawned : Bool
  on_start_fired : Bool
deriving DecidableEq

/-- The no-effect value returned on every refused or dry-run path. -/
def StartEffects.none_fired : StartEffects :=
  { monitor_spawned := false, on_start_fired := false }

/-- ExperimentRunner state (src/chaos/runner.py). -/
structure ExperimentRunner where
  target_services : List (String × Service)
  active_experiments : List (String × Experiment)
  max_concurrent_experiments : Nat
  safety_checks_enabled : Bool
  dry_run_mode : Bool
  require_confirmation : Bool
deriving DecidableEq

/-- The experiment-type specific rules at the end of
ExperimentRunner._safety_check: Chaos Gorilla is refused while another
destructive (Gorilla or Kong) experiment is Running, Chaos Kong is refused
whenever require_confirmation holds. -/
def ExperimentRunner.safety_check_type_rules (r : ExperimentRunner)
    (e : Experiment) : Bool :=
  if e.experiment_type == ExperimentType.chaos_gorilla then
    !(r.active_experiments.any (fun p =>
        (p.2.experiment_type == ExperimentType.chaos_gorilla
          || p.2.experiment_type == ExperimentType.chaos_kong)
        && p.2.status == ExperimentStatus.running))
  else if e.experiment_type == ExperimentType.chaos_kong then
    !r.require_confirmation
  else
    true

/-- ExperimentRunner._safety_check: no registered services fails; a named
target must be registered and is refused only when its healthy count is
strictly below min_instances (at exactly min_instances the experiment is
allowed with a warning); then the type-specific rules apply. -/
def ExperimentRunner.safety_check (r : ExperimentRunner) (e : Experiment) :
    Bool :=
  if r.target_services.isEmpty then
    false
  else
    match e.target_service with
    | none => r.safety_check_type_rules e
    | some t =>
        match List.lookup t r.target_services with
        | none => false
        | some svc =>
            if svc.healthy_count < svc.min_instances then false
            else r.safety_check_type_rules e

/-- Predicate for experiments currently in RUNNING status. -/
def running_experiment (p : String × Experiment) : Bool :=
  p.2.status == ExperimentStatus.running

/-- Number of currently Running experiments among the active ones. -/
def ExperimentRunner.running_count (r : ExperimentRunner) : Nat :=
  r.active_experiments.countP running_experiment

/-- ExperimentRunner.start_experiment: unknown id fails; enabled safety
checks must pass; the concurrency cap refuses when the Running count has
reached max_concurrent_experiments; dry-run mode returns success without any
action; otherwise the experiment is started and, on success, the monitor
thread is spawned and on_start callbacks fire. -/
def ExperimentRunner.start_experiment (r : ExperimentRunner)
    (experiment_id : String) : Bool × ExperimentRunner × StartEffects :=
  match List.lookup experiment_id r.active_experiments with
  | none => (false, r, StartEffects.none_fired)
  | some e =>
      if r.safety_checks_enabled && !(r.safety_check e) then
        (false, r, StartEffects.none_fired)
      else if r.max_concurrent_experiments ≤ r.running_count then
        (false, r, StartEffects.none_fired)
      else if r.dry_run_mode then
        (true, r, StartEffects.none_fired)
      else
        match e.start with
        | (true, e1) =>
            (true,
             { r with active_experiments :=
                 assoc_update r.active_experiments experiment_id e1 },
             { monitor_spawned := true, on_start_fired := true })
        | (false, _) => (false, r, StartEffects.none_fired)

/-- ExperimentRunner.force_experiment: temporarily clears
safety_checks_enabled and require_confirmation, starts the experiment, then
restores both flags. -/
def ExperimentRunner.force_experiment (r : ExperimentRunner)
    (experiment_id : String) : Bool × ExperimentRunner × StartEffects :=
  let r1 := { r with safety_checks_enabled := false,
                     require_confirmation := false }
  match r1.start_experiment experiment_id with
  | (res, r2, eff) =>
      (res, { r2 with safety_checks_enabled := r.safety_checks_enabled,
                      require_confirmation := r.require_confirmation }, eff)

/-! ### Evaluation lemmas for start_experiment -/

theorem start_experiment_none (r : ExperimentRunner) (experiment_id : String)
    (hfind : List.lookup experiment_id r.active_experiments = none) :
    r.start_experiment experiment_id = (false, r, StartEffects.none_fired) := by
  unfold ExperimentRunner.start_experiment
  rw [hfind]

theorem start_experiment_refused_guard (r : ExperimentRunner)
    (experiment_id : String) (e : Experiment)
    (hfind : List.lookup experiment_id r.active_experiments = some e)
    (hg : (r.safety_checks_enabled && !(r.safety_check e)) = true) :
    r.start_experiment experiment_id = (false, r, StartEffects.none_fired) := by
  unfold ExperimentRunner.start_experiment
  rw [hfind]
  dsimp only
  rw [if_pos hg]

theorem start_experiment_refused_cap (r : ExperimentRunner)
    (experiment_id : String) (e : Experiment)
    (hfind : List.lookup experiment_id r.active_experiments = some e)
    (hcap : r.max_concurrent_experiments ≤ r.running_count) :
    r.start_experiment experiment_id = (false, r, StartEffects.none_fired) := by
  unfold ExperimentRunner.start_experiment
  rw [hfind]
  dsimp only
  by_cases hg : (r.safety_checks_enabled && !(r.safety_check e)) = true
  · rw [if_pos hg]
  · rw [if_neg hg, if_pos hcap]

theorem start_experiment_dry (r : ExperimentRunner) (experiment_id : String)
    (e : Experiment)
    (hfind : List.lookup experiment_id r.active_experiments = some e)
    (hg : (r.safety_checks_enabled && !(r.safety_check e)) = false)
    (hcap : r.running_count < r.max_concurrent_experiments)
    (hdry : r.dry_run_mode = true) :
    r.start_experiment experiment_id = (true, r, StartEffects.none_fired) := by
  unfold ExperimentRunner.start_experiment
  rw [hfind]
  dsimp only
  rw [hg]
  simp only [Bool.false_eq_true, if_false]
  rw [if_neg (by omega : ¬ r.max_concurrent_experiments ≤ r.running_count)]
  rw [hdry]
  simp

/-- With safety and cap passed and no dry run, starting a pending experiment
succeeds and updates exactly its entry to RUNNING. -/
theorem start_experiment_success (r : ExperimentRunner) (experiment_id : String)
    (e : Experiment)
    (hfind : List.lookup experiment_id r.active_experiments = some e)
    (hg : (r.safety_checks_enabled && !(r.safety_check e)) = false)
    (hcap : r.running_count < r.max_concurrent_experiments)
    (hdry : r.dry_run_mode = false)
    (hpend : e.status = ExperimentStatus.pending) :
    r.start_experiment experiment_id =
      (true,
       { r with active_experiments := (assoc_update r.active_experiments
           experiment_id { e with status := ExperimentStatus.running }) },
       { monitor_spawned := true, on_start_fired := true }) := by
  unfold ExperimentRunner.start_experiment
  rw [hfind]
  dsimp only
  rw [hg]
  simp only [Bool.false_eq_true, if_false]
  rw [if_neg (by omega : ¬ r.max_concurrent_experiments ≤ r.running_count)]
  rw [hdry]
  simp only [Bool.false_eq_true, if_false]
  have hstart : e.start = (true, { e with status := ExperimentStatus.running }) := by
    simp [Experiment.start, hpend]
  rw [hstart]

/-- A non-pending experiment cannot be started; the runner is unchanged. -/
theorem start_experiment_not_pending (r : ExperimentRunner)
    (experiment_id : String) (e : Experiment)
    (hfind : List.lookup experiment_id r.active_experiments = some e)
    (hg : (r.safety_checks_enabled && !(r.safety_check e)) = false)
    (hcap : r.running_count < r.max_concurrent_experiments)
    (hdry : r.dry_run_mode = false)
    (hnp : e.status ≠ ExperimentStatus.pending) :
    r.start_experiment experiment_id = (false, r, StartEffects.none_fired) := by
  unfold ExperimentRunner.start_experiment
  rw [hfind]
  dsimp only
  rw [hg]
  simp only [Bool.false_eq_true, if_false]
  rw [if_neg (by omega : ¬ r.max_concurrent_experiments ≤ r.running_count)]
  rw [hdry]
  simp only [Bool.false_eq_true, if_false]
  have hstart : e.start = (false, e) := by
    simp [Experiment.start, hnp]
  rw [hstart]

/-- With require_confirmation set, the safety check always fails a Chaos Kong
experiment (whatever the other admission rules say). -/
theorem safety_check_kong (r : ExperimentRunner) (e : Experiment)
    (hconf : r.require_confirmation = true)
    (hty : e.experiment_type = ExperimentType.chaos_kong) :
    r.safety_check e = false := by
  have hrules : r.safety_check_type_rules e = false := by
    simp [ExperimentRunner.safety_check_type_rules, hty, hconf]
  unfold ExperimentRunner.safety_check
  split
  · rfl
  · cases e.target_service with
    | none => exact hrules
    | some t =>
        dsimp only
        cases List.lookup t r.target_services with
        | none => rfl
        | some svc =>
            dsimp only
            split
            · rfl
            · exact hrules

/-- Updating the entry of a non-Running experiment to a Running one raises
the Running count by exactly one (dict keys unique). -/
theorem countP_assoc_update_running (l : List (String × Experiment))
    (k : String) (e v : Experiment)
    (hnd : (l.map Prod.fst).Nodup)
    (hl : List.lookup k l = some e)
    (he : (e.status == ExperimentStatus.running) = false)
    (hv : (v.status == ExperimentStatus.running) = true) :
    (assoc_update l k v).countP running_experiment
      = l.countP running_experiment + 1 := by
  induction l with
  | nil => simp [List.lookup] at hl
  | cons p l ih =>
      obtain ⟨k1, w⟩ := p
      simp only [List.map_cons, List.nodup_cons] at hnd
      cases hp : k1 == k with
      | true =>
          have hkp : k = k1 := (eq_of_beq hp).symm
          have hk : (k == k1) = true := by simp [hkp]
          rw [List.lookup, hk] at hl
          have hw : w = e := by simpa using hl
          have hrest : assoc_update l k v = l :=
            assoc_update_of_not_mem l k v (by rw [hkp]; exact hnd.1)
          simp only [assoc_update, List.map_cons, hp, if_true]
          simp only [assoc_update] at hrest
          rw [hrest, List.countP_cons, List.countP_cons]
          subst hw
          simp [running_experiment, he, hv]
      | false =>
          have hk : (k == k1) = false := by
            simp only [beq_eq_false_iff_ne] at hp ⊢
            exact fun hc => hp hc.symm
          rw [List.lookup, hk] at hl
          simp only [assoc_update, List.map_cons, hp, Bool.false_eq_true,
            if_false]
          rw [List.countP_cons, List.countP_cons]
          have := ih hnd.2 hl
          simp only [assoc_update] at this
          rw [this]
          omega

/-- C3: with safety checks enabled and require_confirmation set (the
defaults), start_experiment refuses a Chaos Kong experiment outright (False,
runner unchanged, nothing spawned), and the force_experiment override path
does start it. -/
theorem C3_chaos_kong_requires_force (r : ExperimentRunner)
    (experiment_id : String) (e : Experiment)
    (hsafe : r.safety_checks_enabled = true)
    (hconf : r.require_confirmation = true)
    (hfind : List.lookup experiment_id r.active_experiments = some e)
    (hty : e.experiment_type = ExperimentType.chaos_kong) :
    r.start_experiment experiment_id = (false, r, StartEffects.none_fired) ∧
    (e.status = ExperimentStatus.pending →
     r.dry_run_mode = false →
     r.running_count < r.max_concurrent_experiments →
      r.force_experiment experiment_id =
        (true,
         { r with active_experiments := (assoc_update r.active_experiments
             experiment_id { e with status := ExperimentStatus.running }) },
         { monitor_spawned := true, on_start_fired := true })) := by
  constructor
  · refine start_experiment_refused_guard r experiment_id e hfind ?_
    rw [hsafe, safety_check_kong r e hconf hty]
    rfl
  · intro hpend hdry hcap
    unfold ExperimentRunner.force_experiment
    dsimp only
    rw [start_experiment_success
      { r with safety_checks_enabled := false, require_confirmation := false }
      experiment_id e hfind (by rfl) hcap hdry hpend]

/-- C5: when the Running count has reached max_concurrent_experiments,
start_experiment refuses (False, runner unchanged), so the number of Running
experiments never exceeds the cap. -/
theorem C5_concurrency_cap (r : ExperimentRunner) (experiment_id : String)
    (hnd : (r.active_experiments.map Prod.fst).Nodup) :
    (r.max_concurrent_experiments ≤ r.running_count →
      r.start_experiment experiment_id = (false, r, StartEffects.none_fired)) ∧
    (r.running_count ≤ r.max_concurrent_experiments →
      (r.start_experiment experiment_id).2.1.running_count
        ≤ r.max_concurrent_experiments) := by
  constructor
  · intro hcap
    cases hfind : List.lookup experiment_id r.active_experiments with
    | none => exact start_experiment_none r experiment_id hfind
    | some e => exact start_experiment_refused_cap r experiment_id e hfind hcap
  · intro hle
    cases hfind : List.lookup experiment_id r.active_experiments with
    | none => rw [start_experiment_none r experiment_id hfind]; exact hle
    | some e =>
        by_cases hcap : r.max_concurrent_experiments ≤ r.running_count
        · rw [start_experiment_refused_cap r experiment_id e hfind hcap]
          exact hle
        · by_cases hg : (r.safety_checks_enabled && !(r.safety_check e)) = true
          · rw [start_experiment_refused_guard r experiment_id e hfind hg]
            exact hle
          · have hg2 : (r.safety_checks_enabled && !(r.safety_check e)) = false := by
              cases h : (r.safety_checks_enabled && !(r.safety_check e))
              · rfl
              · exact absurd h hg
            by_cases hdry : r.dry_run_mode = true
            · rw [start_experiment_dry r experiment_id e hfind hg2
                (by omega) hdry]
              exact hle
            · have hdry2 : r.dry_run_mode = false := by
                cases h : r.dry_run_mode
                · rfl
                · exact absurd h hdry
              by_cases hpend : e.status = ExperimentStatus.pending
              · rw [start_experiment_success r experiment_id e hfind hg2
                  (by omega) hdry2 hpend]
                have hcount : (assoc_update r.active_experiments experiment_id
                    { e with status := ExperimentStatus.running }).countP
                      running_experiment
                    = r.active_experiments.countP running_experiment + 1 := by
                  refine countP_assoc_update_running r.active_experiments
                    experiment_id e _ hnd hfind ?_ (by rfl)
                  simp [hpend]
                show (assoc_update r.active_experiments experiment_id
                    { e with status := ExperimentStatus.running }).countP
                      running_experiment ≤ r.max_concurrent_experiments
                rw [hcount]
                have : r.running_count < r.max_concurrent_experiments := by omega
                unfold ExperimentRunner.running_count at this
                omega
              · rw [start_experiment_not_pending r experiment_id e hfind hg2
                  (by omega) hdry2 hpend]
                exact hle

/-- C10: in dry-run mode, once the safety check and concurrency cap pass,
start_experiment reports success yet performs nothing: the runner (hence
every experiment status and service) is unchanged, no monitor thread is
spawned and no on_start callback fires. -/
theorem C10_dry_run_no_effect (r : ExperimentRunner) (experiment_id : String)
    (e : Experiment)
    (hfind : List.lookup experiment_id r.active_experiments = some e)
    (hsafe : r.safety_check e = true)
    (hcap : r.running_count < r.max_concurrent_experiments)
    (hdry : r.dry_run_mode = true) :
    r.start_experiment experiment_id = (true, r, StartEffects.none_fired) := by
  refine start_experiment_dry r experiment_id e hfind ?_ hcap hdry
  rw [hsafe]
  simp

/-! ### Concrete runner fixtures -/

/-- A fresh instance with the default error probability 0.005 of
ServiceInstance.__init__ (base response time made explicit). -/
def mk_instance (instance_id : String) (status : ServiceStatus)
    (base_response_time : ℚ) : ServiceInstance :=
  { instance_id := instance_id
    region := "us-east-1"
    status := status
    base_response_time := base_response_time
    error_probability := 1/200
    failure_count := 0
    response_time_ms := 0 }

/-- A service with exactly min_instances (= 2) healthy instances. -/
def svcC4 : Service :=
  { name := "svc"
    min_instances := 2
    max_instances := 8
    instances := [mk_instance "a1" ServiceStatus.healthy 100,
                  mk_instance "a2" ServiceStatus.healthy 110]
    request_count := 0
    successful_requests := 0
    error_count := 0
    total_response_time := 0 }

/-- A service strictly below its minimum: one healthy instance, min 2. -/
def svcLow : Service :=
  { name := "svc"
    min_instances := 2
    max_instances := 8
    instances := [mk_instance "b1" ServiceStatus.healthy 100]
    request_count := 0
    successful_requests := 0
    error_count := 0
    total_response_time := 0 }

/-- A pending latency experiment targeting "svc". -/
def expC4 : Experiment :=
  { name := "latency-probe"
    experiment_type := ExperimentType.network_latency
    target_service := some "svc"
    duration_seconds := 300
    status := ExperimentStatus.pending
    error_message := none
    should_stop := false }

/-- A pending region-wide Chaos Kong experiment (no named target, as built by
create_chaos_kong_experiment). -/
def expKong : Experiment :=
  { name := "kong-drill"
    experiment_type := ExperimentType.chaos_kong
    target_service := none
    duration_seconds := 900
    status := ExperimentStatus.pending
    error_message := none
    should_stop := false }

/-- Runner with default safety settings and the boundary-case service. -/
def rC4 : ExperimentRunner :=
  { target_services := [("svc", svcC4)]
    active_experiments := [("e1", expC4)]
    max_concurrent_experiments := 3
    safety_checks_enabled := true
    dry_run_mode := false
    require_confirmation := true }

/-- Same runner but the target service is strictly below its minimum. -/
def rLow : ExperimentRunner :=
  { rC4 with target_services := [("svc", svcLow)] }

/-- Same runner in dry-run mode. -/
def rDry : ExperimentRunner :=
  { rC4 with dry_run_mode := true }

/-- Same runner with a zero concurrency cap. -/
def rCap : ExperimentRunner :=
  { rC4 with max_concurrent_experiments := 0 }

/-- Runner holding a pending Chaos Kong experiment. -/
def rKong : ExperimentRunner :=
  { rC4 with active_experiments := [("k1", expKong)] }

/-- Concrete witness for C3: the Kong experiment is refused by
start_experiment and started by force_experiment. -/
theorem C3_chaos_kong_requires_force_witness :
    rKong.safety_checks_enabled = true ∧
    List.lookup "k1" rKong.active_experiments = some expKong ∧
    rKong.start_experiment "k1" = (false, rKong, StartEffects.none_fired) ∧
    (rKong.force_experiment "k1").1 = true := by
  have h := C3_chaos_kong_requires_force rKong "k1" expKong (by decide)
    (by decide) (by decide) (by decide)
  refine ⟨by decide, by decide, h.1, ?_⟩
  rw [h.2 (by decide) (by decide) (by decide)]

/-- C4 counterexample: with safety checks enabled, a latency experiment whose
target service sits exactly at min_instances healthy instances (at, not
below, the minimum) is NOT refused: start_experiment returns True and sets it
Running, contradicting the claim that at-or-below the minimum is refused. -/
theorem C4_counterexample_at_minimum_allowed :
    svcC4.healthy_count = svcC4.min_instances ∧
    rC4.safety_checks_enabled = true ∧
    (rC4.start_experiment "e1").1 = true ∧
    List.lookup "e1" (rC4.start_experiment "e1").2.1.active_experiments
      = some { expC4 with status := ExperimentStatus.running } := by
  refine ⟨by decide, by decide, by decide, by decide⟩

/-- C4 (amended): with safety checks enabled, start_experiment refuses — with
an explicit False and no state change — every experiment naming a target
service whose healthy-instance count is strictly below its min_instances; at
exactly min_instances the experiment is admitted with a warning. -/
theorem C4_refuse_strictly_below_min (r : ExperimentRunner)
    (experiment_id : String) (e : Experiment) (t : String) (svc : Service)
    (hsafe : r.safety_checks_enabled = true)
    (hfind : List.lookup experiment_id r.active_experiments = some e)
    (htgt : e.target_service = some t)
    (hsvc : List.lookup t r.target_services = some svc)
    (hlow : svc.healthy_count < svc.min_instances) :
    r.safety_check e = false ∧
    r.start_experiment experiment_id = (false, r, StartEffects.none_fired) := by
  have hviol : r.safety_check e = false := by
    unfold ExperimentRunner.safety_check
    rw [isEmpty_false_of_lookup r.target_services t svc hsvc]
    simp only [Bool.false_eq_true, if_false]
    rw [htgt]
    dsimp only
    rw [hsvc]
    dsimp only
    rw [if_pos hlow]
  refine ⟨hviol, start_experiment_refused_guard r experiment_id e hfind ?_⟩
  rw [hsafe, hviol]
  rfl

/-- Concrete witness for the amended C4 at a service one instance short of
its minimum. -/
theorem C4_refuse_strictly_below_min_witness :
    svcLow.healthy_count < svcLow.min_instances ∧
    rLow.start_experiment "e1" = (false, rLow, StartEffects.none_fired) := by
  refine ⟨by decide, ?_⟩
  exact (C4_refuse_strictly_below_min rLow "e1" expC4 "svc" svcLow (by decide)
    (by decide) (by decide) (by rfl) (by decide)).2

/-- Concrete witness for C5: a saturated cap refuses, and below the cap the
Running count stays within the cap after a successful start. -/
theorem C5_concurrency_cap_witness :
    rCap.max_concurrent_experiments ≤ rCap.running_count ∧
    rCap.start_experiment "e1" = (false, rCap, StartEffects.none_fired) ∧
    (rC4.start_experiment "e1").2.1.running_count
      ≤ rC4.max_concurrent_experiments := by
  refine ⟨by decide, ?_, ?_⟩
  · exact (C5_concurrency_cap rCap "e1" (by decide)).1 (by decide)
  · exact (C5_concurrency_cap rC4 "e1" (by decide)).2 (by decide)

/-- Concrete witness for C10 in dry-run mode. -/
theorem C10_dry_run_no_effect_witness :
    rDry.dry_run_mode = true ∧
    rDry.start_experiment "e1" = (true, rDry, StartEffects.none_fired) := by
  refine ⟨by decide, ?_⟩
  exact C10_dry_run_no_effect rDry "e1" expC4 (by decide) (by decide)
    (by decide) (by decide)

/-! ## Keyed per-instance update loops

Both LatencyMonkey.cleanup and NetworkPartitionMonkey.cleanup iterate a
recorded key list and mutate the instance stored under each key.  fold_keyed
is that loop shape; the lemmas below characterise it. -/

/-- Iterate a list of records, updating in each step the instances whose id
matches the record's key. -/
def fold_keyed {σ : Type} (key : σ → String)
    (upd : σ → ServiceInstance → ServiceInstance)
    (l : List σ) (insts : List ServiceInstance) : List ServiceInstance :=
  l.foldl (fun acc x => acc.map (fun i =>
    if i.instance_id == key x then upd x i else i)) insts

/-- The loop acts independently on every instance. -/
theorem fold_keyed_eq_map {σ : Type} (key : σ → String)
    (upd : σ → ServiceInstance → ServiceInstance) (l : List σ)
    (insts : List ServiceInstance) :
    fold_keyed key upd l insts
      = insts.map (fun i => l.foldl (fun j x =>
          if j.instance_id == key x then upd x j else j) i) := by
  induction l generalizing insts with
  | nil => simp [fold_keyed]
  | cons x l ih =>
      simp only [fold_keyed, List.foldl_cons]
      have : (List.foldl (fun acc y => acc.map (fun i =>
          if i.instance_id == key y then upd y i else i)) (insts.map (fun i =>
          if i.instance_id == key x then upd x i else i)) l)
          = fold_keyed key upd l (insts.map (fun i =>
              if i.instance_id == key x then upd x i else i)) := rfl
      rw [this, ih, List.map_map]
      rfl

/-- A single instance whose id is absent from the key list is untouched. -/
theorem foldl_keyed_noop {σ : Type} (key : σ → String)
    (upd : σ → ServiceInstance → ServiceInstance) (l : List σ)
    (j : ServiceInstance) (h : j.instance_id ∉ l.map key) :
    l.foldl (fun j x => if j.instance_id == key x then upd x j else j) j = j := by
  induction l with
  | nil => rfl
  | cons x l ih =>
      simp only [List.map_cons, List.mem_cons] at h
      push_neg at h
      have hc : (j.instance_id == key x) = false := by
        simp only [beq_eq_false_iff_ne]
        exact h.1
      simp only [List.foldl_cons, hc, Bool.false_eq_true, if_false]
      exact ih h.2

/-- The loop preserves instance ids whenever the update does. -/
theorem foldl_keyed_id {σ : Type} (key : σ → String)
    (upd : σ → ServiceInstance → ServiceInstance)
    (hid : ∀ x j, (upd x j).instance_id = j.instance_id)
    (l : List σ) (j : ServiceInstance) :
    (l.foldl (fun j x => if j.instance_id == key x then upd x j else j)
      j).instance_id = j.instance_id := by
  induction l generalizing j with
  | nil => rfl
  | cons x l ih =>
      simp only [List.foldl_cons]
      cases hc : j.instance_id == key x
      · simp only [Bool.false_eq_true, if_false]
        exact ih j
      · simp only [if_true]
        rw [ih (upd x j), hid]

/-- With pairwise distinct keys, an instance matching the record x ends up as
exactly upd x applied once. -/
theorem foldl_keyed_hit {σ : Type} (key : σ → String)
    (upd : σ → ServiceInstance → ServiceInstance)
    (hid : ∀ x j, (upd x j).instance_id = j.instance_id)
    (l : List σ) (x : σ) (j : ServiceInstance)
    (hnd : (l.map key).Nodup) (hx : x ∈ l) (hj : j.instance_id = key x) :
    l.foldl (fun j y => if j.instance_id == key y then upd y j else j) j
      = upd x j := by
  induction l with
  | nil => cases hx
  | cons a l ih =>
      simp only [List.map_cons, List.nodup_cons] at hnd
      rcases List.mem_cons.mp hx with hxa | hxl
      · subst hxa
        have hc : (j.instance_id == key x) = true := by simp [hj]
        simp only [List.foldl_cons, hc, if_true]
        refine foldl_keyed_noop key upd l (upd x j) ?_
        rw [hid x j, hj]
        exact hnd.1
      · have hkey : key x ∈ l.map key := List.mem_map.mpr ⟨x, hxl, rfl⟩
        have hc : (j.instance_id == key a) = false := by
          simp only [beq_eq_false_iff_ne]
          rw [hj]
          intro hcontra
          exact hnd.1 (hcontra ▸ hkey)
        simp only [List.foldl_cons, hc, Bool.false_eq_true, if_false]
        exact ih hnd.2 hxl

/-! ## Latency and NetworkPartition experiments (C7) -/

/-- The first step of LatencyMonkey.execute: snapshot every instance's
base_response_time keyed by id. -/
def record_original_latencies (s : Service) : List (String × ℚ) :=
  s.instances.map (fun i => (i.instance_id, i.base_response_time))

/-- Service.chaos_introduce_latency applied to all instances. -/
def Service.chaos_introduce_latency (s : Service) (latency_ms : ℚ) : Service :=
  { s with instances := (s.instances.map
      (fun i => i.introduce_latency latency_ms)) }

/-- One iteration of the LatencyMonkey.execute watch loop: pick a random
healthy instance and add the per-tick latency delta (the re-randomized
current_latency minus latency_ms in the source). -/
def latency_tick (s : Service) (pick : Nat) (delta : ℚ) : Service :=
  if h : s.get_healthy_instances.length = 0 then s
  else
    { s with instances := s.instances.map (fun i =>
        if i.instance_id == (s.pick_healthy pick h).instance_id
        then i.introduce_latency delta else i) }

/-- LatencyMonkey.execute: record originals, add latency_ms everywhere, then
run the per-tick re-randomization loop (one (pick, delta) pair per tick).
Returns the recorded originals and the mutated service. -/
def latency_execute (latency_ms : ℚ) (ticks : List (Nat × ℚ)) (s : Service) :
    List (String × ℚ) × Service :=
  (record_original_latencies s,
   ticks.foldl (fun acc t => latency_tick acc t.1 t.2)
     (s.chaos_introduce_latency latency_ms))

/-- LatencyMonkey.cleanup: write every recorded original base_response_time
back into the instance still stored under that id. -/
def latency_cleanup (original_latencies : List (String × ℚ)) (s : Service) :
    Service :=
  { s with instances := (fold_keyed Prod.fst
      (fun p i => { i with base_response_time := p.2 })
      original_latencies s.instances) }

/-- NetworkPartitionMonkey.execute: with no healthy instance it raises
(None); otherwise it isolates the random sample (partial) or every healthy
instance (complete) by setting error_probability to 0.8 and adding 10000 ms
of latency, returning the recorded isolated ids and the mutated service. -/
def network_partition_execute (s : Service) (isolation_type : String)
    (sampled : List ServiceInstance) : Option (List String × Service) :=
  if s.get_healthy_instances.length = 0 then
    none
  else
    let to_isolate :=
      if isolation_type == "partial" then sampled else s.get_healthy_instances
    let isolated := to_isolate.map (fun i => i.instance_id)
    some (isolated,
      { s with instances := s.instances.map (fun i =>
          if isolated.contains i.instance_id then
            { i with error_probability := 8/10,
                     base_response_time := i.base_response_time + 10000 }
          else i) })

/-- NetworkPartitionMonkey.cleanup: for every recorded isolated id still in
the pool, set error_probability to the fixed 0.01 and redraw
base_response_time uniformly in [50, 200] (the redraw parameter is that
random.uniform draw). -/
def network_partition_cleanup (isolated_instances : List String)
    (redraw : String → ℚ) (s : Service) : Service :=
  { s with instances := (fold_keyed (fun k => k)
      (fun k i => { i with error_probability := 1/100,
                           base_response_time := redraw k })
      isolated_instances s.instances) }

/-- The single-instance service used in the C7 counterexample. -/
def instNP : ServiceInstance := mk_instance "n1" ServiceStatus.healthy 100

def svcNP : Service :=
  { name := "np-svc"
    min_instances := 1
    max_instances := 8
    instances := [instNP]
    request_count := 0
    successful_requests := 0
    error_count := 0
    total_response_time := 0 }

/-- svcNP after a complete network partition isolates its one instance. -/
def svcNPmid : Service :=
  { svcNP with instances :=
      ([ { instNP with error_probability := 8/10,
                       base_response_time := instNP.base_response_time + 10000 } ]) }

/-- C7 counterexample: a complete NetworkPartition experiment on a service
whose instance has the default error probability 0.005 cleans up to
error_probability 0.01 — NOT the recorded pre-experiment value — so cleanup
does not restore the mutated error-probability field. -/
theorem C7_counterexample_partition_error_rate :
    network_partition_execute svcNP "complete" [] = some (["n1"], svcNPmid) ∧
    ((network_partition_cleanup ["n1"] (fun _ => 120) svcNPmid).instances.map
        (fun i => i.error_probability) = [1/100]) ∧
    (svcNP.instances.map (fun i => i.error_probability) = [1/200]) ∧
    (1 : ℚ)/100 ≠ 1/200 := by
  refine ⟨rfl, rfl, rfl, by norm_num⟩

/-- C7 (amended): after a Latency experiment the cleanup restores, for every
instance recorded at experiment start and still present, exactly the recorded
base_response_time (whatever the watch loop did meanwhile); the
NetworkPartition cleanup instead resets every isolated surviving instance to
the fixed error_probability 0.01 and a freshly drawn base_response_time,
which lies within the construction range [50, 200] rather than being the
recorded pre-experiment value. -/
theorem C7_latency_roundtrip_partition_reset (s : Service) (latency_ms : ℚ)
    (ticks : List (Nat × ℚ))
    (hnd : (s.instances.map (fun i => i.instance_id)).Nodup) :
    (∀ i ∈ s.instances,
      ∀ i' ∈ (latency_cleanup (latency_execute latency_ms ticks s).1
                (latency_execute latency_ms ticks s).2).instances,
        i'.instance_id = i.instance_id →
        i'.base_response_time = i.base_response_time) ∧
    (∀ (isolated : List String) (redraw : String → ℚ) (s2 : Service),
      isolated.Nodup →
      ∀ i' ∈ (network_partition_cleanup isolated redraw s2).instances,
        i'.instance_id ∈ isolated →
        i'.error_probability = 1/100 ∧
        i'.base_response_time = redraw i'.instance_id ∧
        ((∀ k, 50 ≤ redraw k ∧ redraw k ≤ 200) →
          50 ≤ i'.base_response_time ∧ i'.base_response_time ≤ 200)) := by
  constructor
  · intro i hi i' hi' hids
    have hid : ∀ (p : String × ℚ) (j : ServiceInstance),
        (({ j with base_response_time := p.2 } :
          ServiceInstance)).instance_id = j.instance_id := fun _ _ => rfl
    have hkeys : ((record_original_latencies s).map Prod.fst).Nodup := by
      have : (record_original_latencies s).map Prod.fst
          = s.instances.map (fun i => i.instance_id) := by
        simp [record_original_latencies, List.map_map]
      rw [this]
      exact hnd
    simp only [latency_cleanup, latency_execute] at hi'
    rw [fold_keyed_eq_map] at hi'
    obtain ⟨j, hj, hji⟩ := List.mem_map.mp hi'
    have horig : (i.instance_id, i.base_response_time)
        ∈ record_original_latencies s :=
      List.mem_map.mpr ⟨i, hi, rfl⟩
    have hjid : j.instance_id = i.instance_id := by
      have := foldl_keyed_id Prod.fst
        (fun p j => { j with base_response_time := p.2 }) hid
        (record_original_latencies s) j
      rw [← hids, ← hji]
      exact this.symm
    have hhit := foldl_keyed_hit Prod.fst
      (fun p j => { j with base_response_time := p.2 }) hid
      (record_original_latencies s) (i.instance_id, i.base_response_time) j
      hkeys horig hjid
    have heq : i' = ((fun (p : String × ℚ) (j : ServiceInstance) =>
        { j with base_response_time := p.2 })
          (i.instance_id, i.base_response_time) j) :=
      (hhit.symm.trans hji).symm
    have hc := congrArg ServiceInstance.base_response_time heq
    exact hc
  · intro isolated redraw s2 hnodup i' hi' hmem
    have hid : ∀ (k : String) (j : ServiceInstance),
        (({ j with error_probability := 1/100,
                   base_response_time := redraw k } :
          ServiceInstance)).instance_id = j.instance_id := fun _ _ => rfl
    simp only [network_partition_cleanup] at hi'
    rw [fold_keyed_eq_map] at hi'
    obtain ⟨j, hj, hji⟩ := List.mem_map.mp hi'
    have hjid : j.instance_id = i'.instance_id := by
      have := foldl_keyed_id (fun k => k)
        (fun k j => { j with error_probability := 1/100,
                             base_response_time := redraw k }) hid isolated j
      rw [← hji]
      exact this.symm
    have hkeys : (isolated.map (fun k => k)).Nodup := by
      simpa using hnodup
    have hhit := foldl_keyed_hit (fun k => k)
      (fun k j => { j with error_probability := 1/100,
                           base_response_time := redraw k }) hid
      isolated i'.instance_id j hkeys hmem (by rw [hjid])
    have heq : i' = ((fun (k : String) (j : ServiceInstance) =>
        { j with error_probability := 1/100,
                 base_response_time := redraw k }) i'.instance_id j) :=
      (hhit.symm.trans hji).symm
    have herr := congrArg ServiceInstance.error_probability heq
    have hbase := congrArg ServiceInstance.base_response_time heq
    refine ⟨herr, hbase, fun hb => ?_⟩
    constructor
    · rw [hbase]
      exact (hb i'.instance_id).1
    · rw [hbase]
      exact (hb i'.instance_id).2

/-- Concrete witness for the amended C7 on the one-instance service. -/
theorem C7_latency_roundtrip_partition_reset_witness :
    ((svcNP.instances.map (fun i => i.instance_id)).Nodup) ∧
    (∀ i' ∈ (latency_cleanup (latency_execute 500 [(0, 40)] svcNP).1
              (latency_execute 500 [(0, 40)] svcNP).2).instances,
      i'.instance_id = instNP.instance_id →
      i'.base_response_time = instNP.base_response_time) := by
  refine ⟨by decide, ?_⟩
  exact (C7_latency_roundtrip_partition_reset svcNP 500 [(0, 40)]
    (by decide)).1 instNP (List.mem_cons_self instNP [])

/-! ## Chaos Monkey (src/chaos/chaos_monkey.py, C8) -/

/-- One entry of the (last-100) termination history. -/
structure TerminationRecord where
  service_name : String
  instance_id : String
deriving DecidableEq

/-- ChaosMonkey state: safety configuration, registered services and
bookkeeping.  Schedule fields are omitted (force_chaos never reads them). -/
structure ChaosMonkey where
  is_enabled : Bool
  min_healthy_instances : Nat
  max_instances_to_kill : Nat
  excluded_services : List String
  target_services : List (String × Service)
  total_terminations : Nat
  successful_terminations : Nat
  blocked_terminations : Nat
  termination_history : List TerminationRecord
deriving DecidableEq

/-- ChaosMonkey._select_target_service: uniform choice among registered
services whose healthy count strictly exceeds min_healthy_instances. -/
def ChaosMonkey.select_target_service (cm : ChaosMonkey) (pick : Nat) :
    Option String :=
  let eligible := (cm.target_services.filter
    (fun p => cm.min_healthy_instances < p.2.healthy_count)).map Prod.fst
  if h : eligible.length = 0 then
    none
  else
    some (eligible.get ⟨pick % eligible.length, Nat.mod_lt pick (by omega)⟩)

/-- ChaosMonkey._terminate_instance: delegate to the service's
chaos_terminate_random_instance and bump the success or blocked counter. -/
def ChaosMonkey.terminate_instance (cm : ChaosMonkey) (svc : Service)
    (pick : Nat) : Option String × Service × ChaosMonkey :=
  match svc.chaos_terminate_random_instance pick with
  | (some instance_id, svc2) =>
      (some instance_id, svc2,
       { cm with successful_terminations := cm.successful_terminations + 1 })
  | (none, svc2) =>
      (none, svc2,
       { cm with blocked_terminations := cm.blocked_terminations + 1 })

/-- ChaosMonkey._record_termination: bump the total, append to the history
and keep only the last 100 entries. -/
def ChaosMonkey.record_termination (cm : ChaosMonkey) (service_name : String)
    (instance_id : String) : ChaosMonkey :=
  let history := cm.termination_history
    ++ [{ service_name := service_name, instance_id := instance_id }]
  { cm with total_terminations := cm.total_terminations + 1,
            termination_history :=
              (if 100 < history.length then history.drop 1 else history) }

/-- The structured dict returned by force_chaos (status plus the fields the
callers read). -/
structure ForceChaosResult where
  status : String
  service_name : Option String
  instance_id : Option String
deriving DecidableEq

/-- The target chosen by force_chaos: the explicit service_name or else the
random eligible selection. -/
def ChaosMonkey.force_target (cm : ChaosMonkey) (service_name : Option String)
    (pick_service : Nat) : Option String :=
  match service_name with
  | some n => some n
  | none => cm.select_target_service pick_service

/-- ChaosMonkey.force_chaos: error when disabled, when an explicit
service_name is unregistered, or when no service is eligible; otherwise it
attempts one termination on the resolved target and returns success (with the
termination recorded) or blocked.  The lookup-failure arm after target
resolution is unreachable (both resolution paths guarantee registration). -/
def ChaosMonkey.force_chaos (cm : ChaosMonkey) (service_name : Option String)
    (pick_service pick_instance : Nat) : ForceChaosResult × ChaosMonkey :=
  if cm.is_enabled = false then
    ({ status := "error", service_name := none, instance_id := none }, cm)
  else if (match service_name with
           | some n => (List.lookup n cm.target_services).isNone
           | none => false) then
    ({ status := "error", service_name := none, instance_id := none }, cm)
  else
    match cm.force_target service_name pick_service with
    | none =>
        ({ status := "error", service_name := none, instance_id := none }, cm)
    | some target_name =>
        match List.lookup target_name cm.target_services with
        | none =>
            ({ status := "error", service_name := none, instance_id := none }, cm)
        | some svc =>
            match cm.terminate_instance svc pick_instance with
            | (some iid, svc2, cm2) =>
                ({ status := "success", service_name := some target_name,
                   instance_id := some iid },
                 ({ cm2 with target_services :=
                     (assoc_update cm2.target_services target_name svc2)
                  }).record_termination target_name iid)
            | (none, svc2, cm2) =>
                ({ status := "blocked", service_name := some target_name,
                   instance_id := none },
                 { cm2 with target_services :=
                     (assoc_update cm2.target_services target_name svc2) })

/-- Three-healthy-instance service with service-level min_instances = 1. -/
def svc8 : Service :=
  { name := "svc"
    min_instances := 1
    max_instances := 8
    instances := [mk_instance "x1" ServiceStatus.healthy 100,
                  mk_instance "x2" ServiceStatus.healthy 110,
                  mk_instance "x3" ServiceStatus.healthy 120]
    request_count := 0
    successful_requests := 0
    error_count := 0
    total_response_time := 0 }

/-- Monkey whose configured safety minimum (5) exceeds the healthy count (3)
of its one registered service. -/
def cmX : ChaosMonkey :=
  { is_enabled := true
    min_healthy_instances := 5
    max_instances_to_kill := 1
    excluded_services := []
    target_services := [("svc", svc8)]
    total_terminations := 0
    successful_terminations := 0
    blocked_terminations := 0
    termination_history := [] }

/-- C8 counterexample: force_chaos with an explicit service_name bypasses the
monkey-level eligibility check.  With min_healthy_instances = 5 and a service
of only 3 healthy instances (so NOT above the configured safety minimum),
force_chaos("svc") still succeeds and terminates an instance — only the
Service-level min_instances (1) was enforced. -/
theorem C8_counterexample_explicit_target_skips_eligibility :
    svc8.healthy_count ≤ cmX.min_healthy_instances ∧
    cmX.select_target_service 0 = none ∧
    (cmX.force_chaos (some "svc") 0 0).1.status = "success" ∧
    (cmX.force_chaos (some "svc") 0 0).2.successful_terminations = 1 ∧
    ((cmX.force_chaos (some "svc") 0 0).2.target_services.map
        (fun p => p.2.healthy_count)) = [2] ∧
    (cmX.force_chaos (some "svc") 0 0).2.termination_history.length = 1 := by
  refine ⟨by decide, by decide, by decide, by decide, by decide, by decide⟩

/-! ### Lemmas for force_chaos -/

theorem mem_of_lookup {β : Type} (l : List (String × β)) (k : String) (v : β)
    (h : List.lookup k l = some v) : (k, v) ∈ l := by
  induction l with
  | nil => simp [List.lookup] at h
  | cons p l ih =>
      obtain ⟨k1, w⟩ := p
      cases hk : k == k1 with
      | true =>
          rw [List.lookup, hk] at h
          have hv : w = v := by simpa using h
          have hkk : k = k1 := eq_of_beq hk
          subst hkk
          subst hv
          exact List.mem_cons_self _ _
      | false =>
          rw [List.lookup, hk] at h
          exact List.mem_cons_of_mem _ (ih h)

theorem lookup_of_mem_nodup {β : Type} (l : List (String × β)) (k : String)
    (v : β) (hnd : (l.map Prod.fst).Nodup) (h : (k, v) ∈ l) :
    List.lookup k l = some v := by
  induction l with
  | nil => cases h
  | cons p l ih =>
      obtain ⟨k1, w⟩ := p
      simp only [List.map_cons, List.nodup_cons] at hnd
      rcases List.mem_cons.mp h with heq | hmem
      · have hk : k = k1 := congrArg Prod.fst heq
        have hv : v = w := congrArg Prod.snd heq
        subst hk
        subst hv
        rw [List.lookup, beq_self_eq_true]
      · have hkeys : k ∈ l.map Prod.fst :=
          List.mem_map.mpr ⟨(k, v), hmem, rfl⟩
        have hk : (k == k1) = false := by
          simp only [beq_eq_false_iff_ne]
          intro hc
          exact hnd.1 (hc ▸ hkeys)
        rw [List.lookup, hk]
        exact ih hnd.2 hmem

/-- A successful termination implies the service was above its own minimum. -/
theorem chaos_terminate_some (svc : Service) (pick : Nat) (iid : String)
    (svc2 : Service)
    (h : svc.chaos_terminate_random_instance pick = (some iid, svc2)) :
    svc.min_instances < svc.healthy_count := by
  by_cases hle : svc.healthy_count ≤ svc.min_instances
  · rw [chaos_terminate_of_le svc pick hle] at h
    simp at h
  · omega

/-- A refused termination leaves the service unchanged and certifies the
healthy count was at or below the minimum. -/
theorem chaos_terminate_none (svc : Service) (pick : Nat) (svc2 : Service)
    (h : svc.chaos_terminate_random_instance pick = (none, svc2)) :
    svc2 = svc ∧ svc.healthy_count ≤ svc.min_instances := by
  by_cases hle : svc.healthy_count ≤ svc.min_instances
  · rw [chaos_terminate_of_le svc pick hle] at h
    have : svc2 = svc := by
      have := congrArg Prod.snd h
      simpa using this.symm
    exact ⟨this, hle⟩
  · obtain ⟨t, _, heq⟩ := chaos_terminate_of_lt svc pick (by omega)
    rw [heq] at h
    simp at h

/-- An automatic selection only picks a service strictly above the monkey's
min_healthy_instances. -/
theorem select_target_some (cm : ChaosMonkey) (pick : Nat) (n : String)
    (h : cm.select_target_service pick = some n) :
    ∃ svc, (n, svc) ∈ cm.target_services ∧
      cm.min_healthy_instances < svc.healthy_count := by
  unfold ChaosMonkey.select_target_service at h
  by_cases he : ((cm.target_services.filter
      (fun p => cm.min_healthy_instances < p.2.healthy_count)).map
        Prod.fst).length = 0
  · rw [dif_pos he] at h
    cases h
  · rw [dif_neg he] at h
    have hmem : n ∈ (cm.target_services.filter
        (fun p => cm.min_healthy_instances < p.2.healthy_count)).map
          Prod.fst := by
      rw [← Option.some_inj.mp h]
      apply List.get_mem
    obtain ⟨p, hp, hp1⟩ := List.mem_map.mp hmem
    have hfil := List.mem_filter.mp hp
    refine ⟨p.2, ?_, by simpa using hfil.2⟩
    have : (p.1, p.2) = p := rfl
    rw [← hp1, this]
    exact hfil.1

theorem force_chaos_disabled (cm : ChaosMonkey) (service_name : Option String)
    (pick_service pick_instance : Nat) (h : cm.is_enabled = false) :
    cm.force_chaos service_name pick_service pick_instance
      = ({ status := "error", service_name := none, instance_id := none },
         cm) := by
  unfold ChaosMonkey.force_chaos
  rw [if_pos h]

theorem force_chaos_unknown (cm : ChaosMonkey) (n : String)
    (pick_service pick_instance : Nat) (hen : cm.is_enabled = true)
    (hunk : List.lookup n cm.target_services = none) :
    cm.force_chaos (some n) pick_service pick_instance
      = ({ status := "error", service_name := none, instance_id := none },
         cm) := by
  unfold ChaosMonkey.force_chaos
  rw [if_neg (by simp [hen])]
  dsimp only
  rw [hunk]
  rfl

theorem force_chaos_no_target (cm : ChaosMonkey)
    (pick_service pick_instance : Nat) (hen : cm.is_enabled = true)
    (hsel : cm.select_target_service pick_service = none) :
    cm.force_chaos none pick_service pick_instance
      = ({ status := "error", service_name := none, instance_id := none },
         cm) := by
  unfold ChaosMonkey.force_chaos
  rw [if_neg (by simp [hen])]
  dsimp only
  rw [if_neg (by simp)]
  unfold ChaosMonkey.force_target
  rw [hsel]

theorem force_chaos_success_eval (cm : ChaosMonkey)
    (service_name : Option String) (pick_service pick_instance : Nat)
    (target_name : String) (svc : Service) (iid : String) (svc2 : Service)
    (hen : cm.is_enabled = true)
    (hvalid : (match service_name with
               | some n => (List.lookup n cm.target_services).isNone
               | none => false) = false)
    (htgt : cm.force_target service_name pick_service = some target_name)
    (hsvc : List.lookup target_name cm.target_services = some svc)
    (hterm : svc.chaos_terminate_random_instance pick_instance
      = (some iid, svc2)) :
    cm.force_chaos service_name pick_service pick_instance
      = ({ status := "success", service_name := some target_name,
           instance_id := some iid },
         ({ cm with successful_terminations := cm.successful_terminations + 1,
                    target_services :=
                      (assoc_update cm.target_services target_name svc2)
          }).record_termination target_name iid) := by
  unfold ChaosMonkey.force_chaos
  rw [if_neg (by simp [hen])]
  rw [hvalid]
  simp only [Bool.false_eq_true, if_false]
  rw [htgt]
  dsimp only
  rw [hsvc]
  dsimp only
  unfold ChaosMonkey.terminate_instance
  rw [hterm]

theorem force_chaos_blocked_eval (cm : ChaosMonkey)
    (service_name : Option String) (pick_service pick_instance : Nat)
    (target_name : String) (svc : Service) (svc2 : Service)
    (hen : cm.is_enabled = true)
    (hvalid : (match service_name with
               | some n => (List.lookup n cm.target_services).isNone
               | none => false) = false)
    (htgt : cm.force_target service_name pick_service = some target_name)
    (hsvc : List.lookup target_name cm.target_services = some svc)
    (hterm : svc.chaos_terminate_random_instance pick_instance
      = (none, svc2)) :
    cm.force_chaos service_name pick_service pick_instance
      = ({ status := "blocked", service_name := some target_name,
           instance_id := none },
         { cm with blocked_terminations := cm.blocked_terminations + 1,
                   target_services :=
                     (assoc_update cm.target_services target_name svc2) }) := by
  unfold ChaosMonkey.force_chaos
  rw [if_neg (by simp [hen])]
  rw [hvalid]
  simp only [Bool.false_eq_true, if_false]
  rw [htgt]
  dsimp only
  rw [hsvc]
  dsimp only
  unfold ChaosMonkey.terminate_instance
  rw [hterm]

/-- C8 (amended): force_chaos bypasses the probability roll and the schedule
check; the Service-level minimum (healthy count strictly above the target's
min_instances) is always enforced, but the monkey-level eligibility check
(healthy count above min_healthy_instances) only runs on the automatic
selection path and is bypassed by an explicit service_name.  The status field
is exactly one of success, blocked or error; success means exactly one
instance was terminated (the target's healthy count drops by one) and one
record was appended to the bounded history; blocked means no service was
touched and nothing was recorded. -/
theorem C8_force_chaos_safety (cm : ChaosMonkey) (service_name : Option String)
    (pick_service pick_instance : Nat)
    (hnd : (cm.target_services.map Prod.fst).Nodup)
    (hinst : ∀ p ∈ cm.target_services,
      (p.2.instances.map (fun i => i.instance_id)).Nodup) :
    ((cm.force_chaos service_name pick_service pick_instance).1.status
        = "success" ∨
     (cm.force_chaos service_name pick_service pick_instance).1.status
        = "blocked" ∨
     (cm.force_chaos service_name pick_service pick_instance).1.status
        = "error") ∧
    ((cm.force_chaos service_name pick_service pick_instance).1.status
        = "success" →
      ∃ n svc iid,
        (cm.force_chaos service_name pick_service pick_instance).1.service_name
          = some n ∧
        (cm.force_chaos service_name pick_service pick_instance).1.instance_id
          = some iid ∧
        List.lookup n cm.target_services = some svc ∧
        svc.min_instances < svc.healthy_count ∧
        (List.lookup n (cm.force_chaos service_name pick_service
            pick_instance).2.target_services).map Service.healthy_count
          = some (svc.healthy_count - 1) ∧
        (cm.force_chaos service_name pick_service
            pick_instance).2.successful_terminations
          = cm.successful_terminations + 1 ∧
        (cm.force_chaos service_name pick_service
            pick_instance).2.total_terminations
          = cm.total_terminations + 1 ∧
        (cm.force_chaos service_name pick_service
            pick_instance).2.termination_history
          = (if 100 < (cm.termination_history
                ++ [({ service_name := n, instance_id := iid } :
                      TerminationRecord)]).length
             then (cm.termination_history
                ++ [({ service_name := n, instance_id := iid } :
                      TerminationRecord)]).drop 1
             else cm.termination_history
                ++ [({ service_name := n, instance_id := iid } :
                      TerminationRecord)])) ∧
    ((cm.force_chaos service_name pick_service pick_instance).1.status
        = "blocked" →
      (cm.force_chaos service_name pick_service
          pick_instance).2.target_services = cm.target_services ∧
      (cm.force_chaos service_name pick_service
          pick_instance).2.termination_history = cm.termination_history ∧
      (cm.force_chaos service_name pick_service
          pick_instance).2.successful_terminations
        = cm.successful_terminations) ∧
    (service_name = none →
      (cm.force_chaos service_name pick_service pick_instance).1.status
        = "success" →
      ∃ n svc,
        (cm.force_chaos service_name pick_service pick_instance).1.service_name
          = some n ∧
        List.lookup n cm.target_services = some svc ∧
        cm.min_healthy_instances < svc.healthy_count) := by
  have key :
      (cm.force_chaos service_name pick_service pick_instance
        = ({ status := "error", service_name := none, instance_id := none },
           cm)) ∨
      (∃ n svc iid svc2,
        List.lookup n cm.target_services = some svc ∧
        svc.chaos_terminate_random_instance pick_instance = (some iid, svc2) ∧
        (service_name = none →
          cm.min_healthy_instances < svc.healthy_count) ∧
        cm.force_chaos service_name pick_service pick_instance
          = ({ status := "success", service_name := some n,
               instance_id := some iid },
             ({ cm with
                  successful_terminations := cm.successful_terminations + 1,
                  target_services :=
                    (assoc_update cm.target_services n svc2)
              }).record_termination n iid)) ∨
      (∃ n svc,
        List.lookup n cm.target_services = some svc ∧
        svc.healthy_count ≤ svc.min_instances ∧
        cm.force_chaos service_name pick_service pick_instance
          = ({ status := "blocked", service_name := some n,
               instance_id := none },
             { cm with
                 blocked_terminations := cm.blocked_terminations + 1,
                 target_services :=
                   (assoc_update cm.target_services n svc) })) := by
    by_cases hen : cm.is_enabled = true
    · cases hsn : service_name with
      | some n =>
          cases hlook : List.lookup n cm.target_services with
          | none =>
              left
              exact force_chaos_unknown cm n pick_service pick_instance hen
                hlook
          | some svc =>
              have hvalid : (match (some n : Option String) with
                  | some m => (List.lookup m cm.target_services).isNone
                  | none => false) = false := by simp [hlook]
              cases hterm : svc.chaos_terminate_random_instance pick_instance
                with
              | mk res svc2 =>
                cases res with
                | some iid =>
                  right
                  left
                  exact ⟨n, svc, iid, svc2, hlook, hterm,
                    fun hc => Option.noConfusion hc,
                    force_chaos_success_eval cm (some n) pick_service
                      pick_instance n svc iid svc2 hen hvalid rfl hlook hterm⟩
                | none =>
                  right
                  right
                  obtain ⟨hsvc2, hle⟩ := chaos_terminate_none svc
                    pick_instance svc2 hterm
                  rw [hsvc2] at hterm
                  exact ⟨n, svc, hlook, hle,
                    force_chaos_blocked_eval cm (some n) pick_service
                      pick_instance n svc svc hen hvalid rfl hlook hterm⟩
      | none =>
          cases hsel : cm.select_target_service pick_service with
          | none =>
              left
              exact force_chaos_no_target cm pick_service pick_instance hen
                hsel
          | some n =>
              obtain ⟨svc, hmem, hmin⟩ := select_target_some cm pick_service
                n hsel
              have hlook := lookup_of_mem_nodup cm.target_services n svc hnd
                hmem
              have htgt : cm.force_target none pick_service = some n := by
                unfold ChaosMonkey.force_target
                rw [hsel]
              cases hterm : svc.chaos_terminate_random_instance pick_instance
                with
              | mk res svc2 =>
                cases res with
                | some iid =>
                  right
                  left
                  exact ⟨n, svc, iid, svc2, hlook, hterm, fun _ => hmin,
                    force_chaos_success_eval cm none pick_service
                      pick_instance n svc iid svc2 hen rfl htgt hlook hterm⟩
                | none =>
                  right
                  right
                  obtain ⟨hsvc2, hle⟩ := chaos_terminate_none svc
                    pick_instance svc2 hterm
                  rw [hsvc2] at hterm
                  exact ⟨n, svc, hlook, hle,
                    force_chaos_blocked_eval cm none pick_service
                      pick_instance n svc svc hen rfl htgt hlook hterm⟩
    · left
      have hfalse : cm.is_enabled = false := by
        cases h : cm.is_enabled
        · rfl
        · exact absurd h hen
      exact force_chaos_disabled cm service_name pick_service pick_instance
        hfalse
  refine ⟨?_, ?_, ?_, ?_⟩
  · rcases key with heq | ⟨n, svc, iid, svc2, _, _, _, heq⟩ |
      ⟨n, svc, _, _, heq⟩ <;> rw [heq] <;> simp
  · intro hsucc
    rcases key with heq | ⟨n, svc, iid, svc2, hsvc, hterm, hmin, heq⟩ |
      ⟨n, svc, hsvc, hle, heq⟩
    · rw [heq] at hsucc
      simp at hsucc
    · have hndsvc : (svc.instances.map (fun i => i.instance_id)).Nodup :=
        hinst (n, svc) (mem_of_lookup cm.target_services n svc hsvc)
      have hmins := chaos_terminate_some svc pick_instance iid svc2 hterm
      have hcount : svc2.healthy_count = svc.healthy_count - 1 := by
        have := chaos_terminate_healthy_count svc pick_instance hndsvc hmins
        rw [hterm] at this
        exact this
      refine ⟨n, svc, iid, by rw [heq], by rw [heq], hsvc, hmins, ?_, ?_, ?_, ?_⟩
      · rw [heq]
        show (List.lookup n (assoc_update cm.target_services n svc2)).map
          Service.healthy_count = some (svc.healthy_count - 1)
        rw [lookup_assoc_update, hsvc]
        simp [hcount]
      · rw [heq]
        rfl
      · rw [heq]
        rfl
      · rw [heq]
        rfl
    · rw [heq] at hsucc
      simp at hsucc
  · intro hblock
    rcases key with heq | ⟨n, svc, iid, svc2, hsvc, hterm, hmin, heq⟩ |
      ⟨n, svc, hsvc, hle, heq⟩
    · rw [heq] at hblock
      simp at hblock
    · rw [heq] at hblock
      simp at hblock
    · refine ⟨?_, by rw [heq], by rw [heq]⟩
      rw [heq]
      show assoc_update cm.target_services n svc = cm.target_services
      exact assoc_update_self cm.target_services n svc hnd hsvc
  · intro hnone hsucc
    rcases key with heq | ⟨n, svc, iid, svc2, hsvc, hterm, hmin, heq⟩ |
      ⟨n, svc, hsvc, hle, heq⟩
    · rw [heq] at hsucc
      simp at hsucc
    · exact ⟨n, svc, by rw [heq], hsvc, hmin hnone⟩
    · rw [heq] at hsucc
      simp at hsucc

/-- Concrete witness for the amended C8 at the explicit-target monkey. -/
theorem C8_force_chaos_safety_witness :
    ((cmX.target_services.map Prod.fst).Nodup) ∧
    ((cmX.force_chaos (some "svc") 0 0).1.status = "success" ∨
     (cmX.force_chaos (some "svc") 0 0).1.status = "blocked" ∨
     (cmX.force_chaos (some "svc") 0 0).1.status = "error") := by
  refine ⟨by decide, ?_⟩
  exact (C8_force_chaos_safety cmX (some "svc") 0 0 (by decide) (by decide)).1

/-! ## Alert manager (src/core/monitoring.py, C2) -/

/-- An Alert (the human-readable message string is not modelled; it is an
f-string interpolation of the fields below). -/
structure Alert where
  id : String
  severity : String
  service_name : String
  instance_id : Option String
  metric_name : String
  current_value : ℚ
  threshold : ℚ
  timestamp : ℚ
  resolved : Bool
  resolved_timestamp : Option ℚ
deriving DecidableEq

/-- An alert rule (again without the message template). -/
structure AlertRule where
  name : String
  metric : String
  threshold : ℚ
  op : String
  severity : String
deriving DecidableEq

/-- AlertManager._setup_default_alert_rules. -/
def default_alert_rules : List AlertRule :=
  [ { name := "high_response_time", metric := "response_time_ms",
      threshold := 1000, op := ">", severity := "HIGH" },
    { name := "high_error_rate", metric := "error_rate",
      threshold := 5, op := ">", severity := "CRITICAL" },
    { name := "low_availability", metric := "availability",
      threshold := 90, op := "<", severity := "HIGH" },
    { name := "high_cpu_usage", metric := "cpu_usage",
      threshold := 85, op := ">", severity := "MEDIUM" },
    { name := "high_memory_usage", metric := "memory_usage",
      threshold := 85, op := ">", severity := "MEDIUM" } ]

/-- AlertManager state: the alerts dict (resolved alerts are kept — they are
the alert history) and the rule list. -/
structure AlertManager where
  alerts : List (String × Alert)
  alert_rules : List AlertRule
deriving DecidableEq

/-- AlertManager._evaluate_rule. -/
def evaluate_rule (rule : AlertRule) (value : ℚ) : Bool :=
  if rule.op == ">" then decide (value > rule.threshold)
  else if rule.op == "<" then decide (value < rule.threshold)
  else if rule.op == ">=" then decide (value ≥ rule.threshold)
  else if rule.op == "<=" then decide (value ≤ rule.threshold)
  else if rule.op == "==" then decide (value = rule.threshold)
  else if rule.op == "!=" then decide (value ≠ rule.threshold)
  else false

/-- The alert identity: service, instance-or-"service", rule name. -/
def mk_alert_id (service_name : String) (instance_id : Option String)
    (rule_name : String) : String :=
  service_name ++ ":" ++ (instance_id.getD "service") ++ ":" ++ rule_name

/-- The body of the rule loop in AlertManager.check_metric: skip rules for
other metrics; open a new alert when the rule fires and the identity is not
registered; resolve a registered unresolved alert when the rule stops firing;
otherwise do nothing. -/
def AlertManager.check_metric_rule (m : AlertManager) (metric_name : String)
    (value : ℚ) (service_name : String) (instance_id : Option String)
    (now : ℚ) (rule : AlertRule) : AlertManager :=
  if rule.metric == metric_name then
    let should_alert := evaluate_rule rule value
    let alert_id := mk_alert_id service_name instance_id rule.name
    if should_alert && (List.lookup alert_id m.alerts).isNone then
      { m with alerts := (m.alerts ++
          [(alert_id,
            { id := alert_id, severity := rule.severity,
              service_name := service_name, instance_id := instance_id,
              metric_name := metric_name, current_value := value,
              threshold := rule.threshold, timestamp := now,
              resolved := false, resolved_timestamp := none })]) }
    else if !should_alert && (List.lookup alert_id m.alerts).isSome then
      { m with alerts := (m.alerts.map (fun p =>
          if p.1 == alert_id && !p.2.resolved then
            (p.1, { p.2 with resolved := true,
                             resolved_timestamp := some now })
          else p)) }
    else m
  else m

/-- AlertManager.check_metric: evaluate every rule in order. -/
def AlertManager.check_metric (m : AlertManager) (metric_name : String)
    (value : ℚ) (service_name : String) (instance_id : Option String)
    (now : ℚ) : AlertManager :=
  m.alert_rules.foldl
    (fun acc rule => acc.check_metric_rule metric_name value service_name
      instance_id now rule) m

/-- AlertManager.get_active_alerts: the unresolved ones. -/
def AlertManager.get_active_alerts (m : AlertManager) : List Alert :=
  (m.alerts.map Prod.snd).filter (fun a => !a.resolved)

/-- Resolving rewrites exactly the registered entry (the first entry under
the key is the one lookup sees, so no key-uniqueness is needed). -/
theorem lookup_map_resolve (l : List (String × Alert)) (k : String) (now : ℚ)
    (a : Alert) (hl : List.lookup k l = some a) (hra : a.resolved = false) :
    List.lookup k (l.map (fun p =>
        if p.1 == k && !p.2.resolved then
          (p.1, { p.2 with resolved := true, resolved_timestamp := some now })
        else p))
      = some { a with resolved := true, resolved_timestamp := some now } := by
  induction l with
  | nil => simp [List.lookup] at hl
  | cons p l ih =>
      obtain ⟨k1, w⟩ := p
      cases hk1 : k1 == k with
      | true =>
          have hkk : k = k1 := (eq_of_beq hk1).symm
          have hk : (k == k1) = true := by simp [hkk]
          rw [List.lookup, hk] at hl
          have hw : w = a := by simpa using hl
          subst hw
          simp only [List.map_cons, hk1, hra, Bool.not_false, Bool.and_self,
            if_true]
          rw [List.lookup, hk]
      | false =>
          have hk : (k == k1) = false := by
            simp only [beq_eq_false_iff_ne] at hk1 ⊢
            exact fun hc => hk1 hc.symm
          rw [List.lookup, hk] at hl
          simp only [List.map_cons, hk1, Bool.false_and, Bool.false_eq_true,
            if_false]
          rw [List.lookup, hk]
          exact ih hl

/-- The three concrete managers of the breach / recover / re-breach
scenario. -/
def amgr0 : AlertManager :=
  { alerts := [], alert_rules := default_alert_rules }

def amgr1 : AlertManager :=
  amgr0.check_metric "response_time_ms" 1500 "svc" none 1

def amgr2 : AlertManager :=
  amgr1.check_metric "response_time_ms" 200 "svc" none 2

def amgr3 : AlertManager :=
  amgr2.check_metric "response_time_ms" 1500 "svc" none 3

/-- C2 counterexample: breach (one open alert), recovery (it resolves), then
a second breach of the same identity: the resolved alert is still registered
under the identity, so check_metric changes nothing and NO new open alert is
created — the claim that a subsequent breach opens a new Alert instance is
false on the code. -/
theorem C2_counterexample_no_reopen_after_resolve :
    amgr1.get_active_alerts.length = 1 ∧
    (List.lookup (mk_alert_id "svc" none "high_response_time")
        amgr1.alerts).isSome = true ∧
    amgr2.get_active_alerts.length = 0 ∧
    amgr3 = amgr2 ∧
    amgr3.get_active_alerts = [] := by
  refine ⟨by decide, by decide, by decide, by decide, by decide⟩

/-- C2 (amended): while an identity is registered, re-raising it is a no-op
(so at most one alert per identity ever exists, and a first breach appends
exactly one open alert); when the metric stops satisfying a rule, the
registered unresolved alert resolves with a resolved timestamp; but the
resolved alert stays registered under its identity, so a later breach of the
same identity does NOT open a new alert (it is a no-op). -/
theorem C2_alert_dedup_resolve_no_reopen (m : AlertManager)
    (metric_name : String) (value : ℚ) (service_name : String)
    (instance_id : Option String) (now : ℚ) (rule : AlertRule) :
    (evaluate_rule rule value = true →
     (List.lookup (mk_alert_id service_name instance_id rule.name)
        m.alerts).isSome = true →
     m.check_metric_rule metric_name value service_name instance_id now rule
        = m) ∧
    (rule.metric = metric_name →
     evaluate_rule rule value = true →
     List.lookup (mk_alert_id service_name instance_id rule.name) m.alerts
        = none →
     (m.check_metric_rule metric_name value service_name instance_id now
         rule).alerts
       = m.alerts ++
          [(mk_alert_id service_name instance_id rule.name,
            { id := mk_alert_id service_name instance_id rule.name,
              severity := rule.severity, service_name := service_name,
              instance_id := instance_id, metric_name := metric_name,
              current_value := value, threshold := rule.threshold,
              timestamp := now, resolved := false,
              resolved_timestamp := none })]) ∧
    (∀ a : Alert, rule.metric = metric_name →
     evaluate_rule rule value = false →
     List.lookup (mk_alert_id service_name instance_id rule.name) m.alerts
        = some a →
     a.resolved = false →
     List.lookup (mk_alert_id service_name instance_id rule.name)
        (m.check_metric_rule metric_name value service_name instance_id now
          rule).alerts
       = some { a with resolved := true, resolved_timestamp := some now }) := by
  refine ⟨fun hfire hreg => ?_, fun hmet hfire hnone => ?_,
    fun a hmet hquiet hreg hopen => ?_⟩
  · unfold AlertManager.check_metric_rule
    cases hrm : rule.metric == metric_name with
    | false => simp [hrm]
    | true =>
        simp only [hrm, if_true]
        have hg1 : (evaluate_rule rule value &&
            (List.lookup (mk_alert_id service_name instance_id rule.name)
              m.alerts).isNone) = false := by
          rw [hfire]
          simp only [Bool.true_and]
          cases hl : List.lookup (mk_alert_id service_name instance_id
            rule.name) m.alerts
          · rw [hl] at hreg
            simp at hreg
          · simp
        have hg2 : (!(evaluate_rule rule value) &&
            (List.lookup (mk_alert_id service_name instance_id rule.name)
              m.alerts).isSome) = false := by
          rw [hfire]
          simp
        rw [hg1, hg2]
        simp
  · unfold AlertManager.check_metric_rule
    have hrm : (rule.metric == metric_name) = true := by simp [hmet]
    simp only [hrm, if_true]
    have hg1 : (evaluate_rule rule value &&
        (List.lookup (mk_alert_id service_name instance_id rule.name)
          m.alerts).isNone) = true := by
      rw [hfire, hnone]
      rfl
    rw [hg1]
    simp
  · unfold AlertManager.check_metric_rule
    have hrm : (rule.metric == metric_name) = true := by simp [hmet]
    simp only [hrm, if_true]
    have hg1 : (evaluate_rule rule value &&
        (List.lookup (mk_alert_id service_name instance_id rule.name)
          m.alerts).isNone) = false := by
      rw [hquiet]
      rfl
    have hg2 : (!(evaluate_rule rule value) &&
        (List.lookup (mk_alert_id service_name instance_id rule.name)
          m.alerts).isSome) = true := by
      rw [hquiet, hreg]
      rfl
    rw [hg1, hg2]
    simp only [Bool.false_eq_true, if_false, if_true]
    exact lookup_map_resolve m.alerts
      (mk_alert_id service_name instance_id rule.name) now a hreg hopen

/-- Concrete witness for the amended C2 inside the scenario: re-raising the
open alert of amgr1 is a no-op, and the recovery value resolves it. -/
theorem C2_alert_dedup_resolve_no_reopen_witness :
    (amgr1.check_metric_rule "response_time_ms" 1500 "svc" none 9
        (default_alert_rules.get ⟨0, by decide⟩) = amgr1) ∧
    (List.lookup (mk_alert_id "svc" none "high_response_time")
        (amgr1.check_metric_rule "response_time_ms" 200 "svc" none 2
          (default_alert_rules.get ⟨0, by decide⟩)).alerts).isSome = true := by
  constructor
  · exact (C2_alert_dedup_resolve_no_reopen amgr1 "response_time_ms" 1500
      "svc" none 9 (default_alert_rules.get ⟨0, by decide⟩)).1 (by decide)
      (by decide)
  · have h := (C2_alert_dedup_resolve_no_reopen amgr1 "response_time_ms" 200
      "svc" none 2 (default_alert_rules.get ⟨0, by decide⟩)).2.2
    have h2 := h (amgr1.alerts.get ⟨0, by decide⟩).2 (by decide) (by decide)
      (by decide) (by decide)
    exact (congrArg Option.isSome h2).trans rfl

end Chaos
